import Mathlib

/-!
Verification of the purchase-order inbox pipeline.

Shallow embedding of the deterministic parts of the repository:
the business rule engine (pydantic validators in `src/agents/retriever.py`),
the decision rule (`src/agents/decider.py`), the Slack approval gate
(`src/messaging/slack_approval.py`), the Airtable write operations
(`src/crm/airtable_tools.py`), the fulfillment procedure
(`src/agents/fulfiller.py`), the groundedness gate
(`src/safety/groundedness_check.py`) and the evidence buffers
(`src/agents/tool_capture.py`, `src/agents/middleware_tools.py`,
`src/workflow/workflow.py`).

Money amounts are modelled as rationals, quantities as naturals
(pydantic constrains them to non-negative ints), stored inventory
quantities as integers (the store can go negative).
-/

namespace POInbox

/-! ## Business rule engine (`src/agents/retriever.py`)

`RetrievedItem` and `RetrievedPO` mirror the pydantic models; the two
`model_validator(mode="after")` hooks `_set_computed_fields` and
`_set_totals` are embedded as pure functions applied after construction.
-/

structure RetrievedItem where
  customer_id : String
  customer_name : String
  customer_address : String
  product_sku : String
  product_name : String
  product_qty_available : ℕ
  ordered_qty : ℕ
  unit_price : ℚ
  vat_rate : ℚ
  product_in_stock : Bool
  subtotal : ℚ
deriving Repr, DecidableEq

/-- `RetrievedItem._set_computed_fields`: recompute the in-stock flag and the
line subtotal from the raw fields (runs after every model construction). -/
def set_computed_fields (it : RetrievedItem) : RetrievedItem :=
  { it with
    product_in_stock := decide (it.product_qty_available ≥ it.ordered_qty)
    subtotal := (it.ordered_qty : ℚ) * it.unit_price }

structure RetrievedPO where
  email_id : String
  po_number : String
  customer_id : String
  customer_name : String
  customer_overall_credit_limit : ℚ
  customer_open_ar : ℚ
  customer_available_credit : ℚ
  items : List RetrievedItem
  tax : ℚ
  shipping : ℚ
  subtotal : ℚ
  order_total : ℚ
  customer_can_order_with_credit : Bool
  retrieval_evidence : List String
deriving Repr, DecidableEq

/-- `RetrievedPO._set_totals`: recompute every derived financial field, in the
source's assignment order, and copy the global `search_evidence` buffer into
`retrieval_evidence`.  The buffer is passed explicitly as `search_evidence`. -/
def set_totals (search_evidence : List String) (po : RetrievedPO) : RetrievedPO :=
  let avail := po.customer_overall_credit_limit - po.customer_open_ar
  let tax := (po.items.map (fun it => it.subtotal * it.vat_rate)).sum
  let lineSum := (po.items.map (fun it => it.subtotal)).sum
  let shipping : ℚ := if lineSum > 0 then 25 else 0
  let total := lineSum + tax + shipping
  { po with
    customer_available_credit := avail
    tax := tax
    shipping := shipping
    subtotal := lineSum
    order_total := total
    customer_can_order_with_credit := decide (avail ≥ total)
    retrieval_evidence := search_evidence }

/-- Full rule-engine pass over a `RetrievedPO`: pydantic validates the nested
items first (`_set_computed_fields` on each) and then the order itself
(`_set_totals`). -/
def mkRetrievedPO (search_evidence : List String) (po : RetrievedPO) : RetrievedPO :=
  set_totals search_evidence { po with items := po.items.map set_computed_fields }

/-- `_set_computed_fields` recomputes both derived item fields from scratch,
so running it a second time changes nothing. -/
lemma set_computed_fields_idem (it : RetrievedItem) :
    set_computed_fields (set_computed_fields it) = set_computed_fields it := by
  simp [set_computed_fields]

/-- A concrete line item used to instantiate the universally quantified
theorems: 4 units ordered at 3 EUR with 10 available and 19% VAT. -/
def item0 : RetrievedItem :=
  { customer_id := "C-1001", customer_name := "Acme GmbH", customer_address := "Berlin"
    product_sku := "SKU-1", product_name := "Widget"
    product_qty_available := 10, ordered_qty := 4
    unit_price := 3, vat_rate := 19/100
    product_in_stock := false, subtotal := 0 }

/-- A concrete order over `item0` with credit limit 1000 and open AR 100. -/
def po0 : RetrievedPO :=
  { email_id := "em1", po_number := "PO-1", customer_id := "C-1001"
    customer_name := "Acme GmbH"
    customer_overall_credit_limit := 1000, customer_open_ar := 100
    customer_available_credit := 0, items := [item0]
    tax := 0, shipping := 0, subtotal := 0, order_total := 0
    customer_can_order_with_credit := false, retrieval_evidence := [] }

end POInbox

namespace POInbox

/-- C1: every enriched order produced by the rule engine satisfies the stated
equations: line subtotal = ordered quantity x unit price; line in-stock flag
true exactly when available >= ordered; order subtotal = sum of line
subtotals; tax = sum over lines of line subtotal x that line's VAT rate;
shipping = flat 25 exactly when the subtotal is positive, else 0; grand
total = subtotal + tax + shipping; available credit = credit limit - open
receivables; credit flag true exactly when available credit >= grand
total. -/
theorem C1_rule_engine_derived_fields (po : RetrievedPO) (ev : List String) :
    (∀ it ∈ (mkRetrievedPO ev po).items,
        it.subtotal = (it.ordered_qty : ℚ) * it.unit_price ∧
        (it.product_in_stock = true ↔ it.product_qty_available ≥ it.ordered_qty)) ∧
    (mkRetrievedPO ev po).subtotal
        = ((mkRetrievedPO ev po).items.map (fun it => it.subtotal)).sum ∧
    (mkRetrievedPO ev po).tax
        = ((mkRetrievedPO ev po).items.map (fun it => it.subtotal * it.vat_rate)).sum ∧
    (mkRetrievedPO ev po).shipping
        = (if (mkRetrievedPO ev po).subtotal > 0 then (25 : ℚ) else 0) ∧
    (mkRetrievedPO ev po).order_total
        = (mkRetrievedPO ev po).subtotal + (mkRetrievedPO ev po).tax
            + (mkRetrievedPO ev po).shipping ∧
    (mkRetrievedPO ev po).customer_available_credit
        = po.customer_overall_credit_limit - po.customer_open_ar ∧
    ((mkRetrievedPO ev po).customer_can_order_with_credit = true ↔
        (mkRetrievedPO ev po).customer_available_credit
          ≥ (mkRetrievedPO ev po).order_total) := by
  refine ⟨?_, ?_, ?_, ?_, ?_, ?_, ?_⟩
  · intro it hit
    simp only [mkRetrievedPO, set_totals] at hit
    obtain ⟨raw, _, rfl⟩ := List.mem_map.1 hit
    constructor
    · simp [set_computed_fields]
    · simp [set_computed_fields]
  · simp [mkRetrievedPO, set_totals]
  · simp [mkRetrievedPO, set_totals]
  · simp [mkRetrievedPO, set_totals]
  · simp [mkRetrievedPO, set_totals]
  · simp [mkRetrievedPO, set_totals]
  · simp [mkRetrievedPO, set_totals]

/-- Closed instantiation of `C1_rule_engine_derived_fields` at the concrete
order `po0`, discharging the item-membership hypothesis at its single line
item. -/
theorem C1_witness :
    (set_computed_fields item0).subtotal
        = ((set_computed_fields item0).ordered_qty : ℚ)
            * (set_computed_fields item0).unit_price ∧
    ((set_computed_fields item0).product_in_stock = true ↔
        (set_computed_fields item0).product_qty_available
          ≥ (set_computed_fields item0).ordered_qty) :=
  (C1_rule_engine_derived_fields po0 []).1 (set_computed_fields item0)
    (by simp [mkRetrievedPO, set_totals, po0])

/-! ## Decision stage (`src/agents/decider.py`)

The decision logic of this repository lives in the decider agent's embedded
instructions (the stage is an LLM call with `response_format=Decision`):
FULFILLABLE iff every item has `product_in_stock=True` and
`customer_can_order_with_credit` is `True`; a placeholder customer id such
as `NEW` is explicitly not a blocking condition and is never consulted. -/

inductive DecisionStatus where
  | FULFILLABLE : DecisionStatus
  | UNFULFILLABLE : DecisionStatus
deriving Repr, DecidableEq

/-- Decision criteria as written in the decider agent's instructions
(`src/agents/decider.py`): inventory check (every `product_in_stock`),
credit check (`customer_can_order_with_credit`), and no dependence on the
customer id. -/
def decider_status (po : RetrievedPO) : DecisionStatus :=
  if (po.items.all fun it => it.product_in_stock) && po.customer_can_order_with_credit
  then DecisionStatus.FULFILLABLE else DecisionStatus.UNFULFILLABLE

/-- Every line item of an order produced by the rule engine carries the
recomputed in-stock flag. -/
lemma item_in_stock_of_mem {ev : List String} {po : RetrievedPO} {it : RetrievedItem}
    (hit : it ∈ (mkRetrievedPO ev po).items) :
    it.product_in_stock = decide (it.product_qty_available ≥ it.ordered_qty) := by
  simp only [mkRetrievedPO, set_totals] at hit
  obtain ⟨raw, _, rfl⟩ := List.mem_map.1 hit
  simp [set_computed_fields]

/-- The credit flag of an order produced by the rule engine is the comparison
of its own available-credit and grand-total fields. -/
lemma credit_flag_eq (ev : List String) (po : RetrievedPO) :
    (mkRetrievedPO ev po).customer_can_order_with_credit
      = decide ((mkRetrievedPO ev po).customer_available_credit
          ≥ (mkRetrievedPO ev po).order_total) := by
  simp [mkRetrievedPO, set_totals]

/-- C2: for every enriched order reaching the decision stage, the decision
is UNFULFILLABLE iff some line's ordered quantity exceeds its available
quantity or available credit is below the grand total; and the decision
does not depend on the customer id, so a placeholder id such as "NEW" is
not by itself blocking. -/
theorem C2_decision_rule (po : RetrievedPO) (ev : List String) :
    (decider_status (mkRetrievedPO ev po) = DecisionStatus.UNFULFILLABLE ↔
      (∃ it ∈ (mkRetrievedPO ev po).items,
          it.product_qty_available < it.ordered_qty) ∨
      (mkRetrievedPO ev po).customer_available_credit
        < (mkRetrievedPO ev po).order_total) ∧
    (∀ s : String,
        decider_status { mkRetrievedPO ev po with customer_id := s }
          = decider_status (mkRetrievedPO ev po)) := by
  constructor
  · unfold decider_status
    by_cases hb : (((mkRetrievedPO ev po).items.all fun it => it.product_in_stock)
        && (mkRetrievedPO ev po).customer_can_order_with_credit) = true
    · rw [if_pos hb]
      obtain ⟨hall, hcred⟩ : (((mkRetrievedPO ev po).items.all
            fun it => it.product_in_stock) = true)
          ∧ ((mkRetrievedPO ev po).customer_can_order_with_credit = true) := by
        simpa using hb
      constructor
      · intro h; cases h
      · rintro (⟨it, hit, hlt⟩ | hlt)
        · have hst := List.all_eq_true.1 hall it hit
          rw [item_in_stock_of_mem hit] at hst
          have := of_decide_eq_true hst
          omega
        · rw [credit_flag_eq] at hcred
          exact absurd (of_decide_eq_true hcred) (not_le.2 hlt)
    · rw [if_neg hb]
      constructor
      · intro _
        by_cases hall : ((mkRetrievedPO ev po).items.all
            fun it => it.product_in_stock) = true
        · right
          have hcredfalse : (mkRetrievedPO ev po).customer_can_order_with_credit
              = false := by
            cases hc : (mkRetrievedPO ev po).customer_can_order_with_credit
            · rfl
            · exact absurd (by simp [hall, hc]) hb
          rw [credit_flag_eq] at hcredfalse
          exact not_le.1 (of_decide_eq_false hcredfalse)
        · left
          rw [List.all_eq_true] at hall
          push_neg at hall
          obtain ⟨it, hit, hst⟩ := hall
          refine ⟨it, hit, ?_⟩
          rw [item_in_stock_of_mem hit] at hst
          simp only [Bool.not_eq_true] at hst
          have := of_decide_eq_false hst
          omega
      · intro _; rfl
  · intro s; rfl

/-- Closed instantiation of `C2_decision_rule`: the concrete order `po0`
(ample stock and credit) is FULFILLABLE even with the placeholder customer
id "NEW". -/
theorem C2_witness :
    decider_status { mkRetrievedPO [] po0 with customer_id := "NEW" }
      = decider_status (mkRetrievedPO [] po0) ∧
    decider_status (mkRetrievedPO [] po0) = DecisionStatus.FULFILLABLE := by
  refine ⟨(C2_decision_rule po0 []).2 "NEW", ?_⟩
  have h := (C2_decision_rule po0 []).1
  cases hd : decider_status (mkRetrievedPO [] po0)
  · rfl
  · exfalso
    rcases h.1 hd with ⟨it, hit, hlt⟩ | hlt
    · have : (mkRetrievedPO [] po0).items = [set_computed_fields item0] := by
        simp [mkRetrievedPO, set_totals, po0]
      rw [this] at hit
      simp only [List.mem_singleton] at hit
      subst hit
      revert hlt
      simp [set_computed_fields, item0]
    · revert hlt
      simp [mkRetrievedPO, set_totals, po0, item0, set_computed_fields]
      norm_num

/-- C7: the rule-engine computation is deterministic (it is a pure function of
the record and the evidence buffer), idempotent (running it twice on
unchanged input is the same as running it once), and its derived fields
depend on nothing but the line items, credit limit and open receivables:
two runs that differ only in the global evidence buffer agree on every
field except the copied `retrieval_evidence`. -/
theorem C7_rule_engine_idempotent (po : RetrievedPO) (ev ev2 : List String) :
    mkRetrievedPO ev (mkRetrievedPO ev po) = mkRetrievedPO ev po ∧
    mkRetrievedPO ev po = { mkRetrievedPO ev2 po with retrieval_evidence := ev } := by
  constructor
  · cases po with
    | mk email_id po_number customer_id customer_name lim ar avail items tax
        shipping subtotal total flag evid =>
      simp [mkRetrievedPO, set_totals, List.map_map, Function.comp_def,
        set_computed_fields_idem]
  · cases po with
    | mk email_id po_number customer_id customer_name lim ar avail items tax
        shipping subtotal total flag evid =>
      simp [mkRetrievedPO, set_totals]

/-! ## Human approval gate (`src/messaging/slack_approval.py`)

`get_approval_from_slack` polls a Slack thread every `poll_interval`
seconds until `timeout`; each poll fetches the thread replies and checks
them in order, approve keywords before deny keywords.  Time is abstracted:
`polls` lists, for each poll iteration completed before the timeout, the
reply texts fetched at that iteration; exhausting the list is the timeout.
-/

/-- A regex word character (`\w`): letter, digit or underscore. -/
def isWordChar (c : Char) : Bool := c.isAlphanum || c = '_'

/-- Maximal word-character runs of a character list; `acc` accumulates the
current run in reverse. -/
def wordsOfAux : List Char → List Char → List String
  | [], acc => if acc.isEmpty then [] else [String.mk acc.reverse]
  | c :: cs, acc =>
    if isWordChar c then wordsOfAux cs (c :: acc)
    else if acc.isEmpty then wordsOfAux cs []
    else String.mk acc.reverse :: wordsOfAux cs []

/-- The standalone words of a text. -/
def wordsOf (s : String) : List String := wordsOfAux s.toList []

/-- `_has_keyword`: some keyword occurs as a standalone word of the text.
For a keyword made of word characters (all of the gate's keywords are
alphabetic) the regex search for the keyword between word boundaries
succeeds exactly when the keyword is one of the maximal word-character runs
of the text. -/
def has_keyword (keywords : List String) (text : String) : Bool :=
  keywords.any fun keyword => (wordsOf text).contains keyword

/-- Lower-casing applied to each reply before keyword matching.  The
source also strips leading and trailing whitespace, which cannot change
the word set. -/
def lowerStr (s : String) : String := String.mk (s.toList.map Char.toLower)

def approve_keywords : List String :=
  ["approve", "approved", "yes", "y", "yep", "ja", "confirm"]

def deny_keywords : List String :=
  ["deny", "denied", "reject", "rejected", "no", "n", "nope"]

/-- One poll iteration over the fetched thread replies (`messages[1:]`), in
order: the first reply with an approve keyword decides approval, the first
with a deny keyword decides denial, otherwise no decision yet. -/
def scanReplies : List String → Option Bool
  | [] => none
  | t :: rest =>
    if has_keyword approve_keywords (lowerStr t) then some true
    else if has_keyword deny_keywords (lowerStr t) then some false
    else scanReplies rest

/-- The polling loop of `get_approval_from_slack`: return the first decision
found by any poll; running out of polls (the timeout) returns `false`,
the deny default. -/
def get_approval_from_slack : List (List String) → Bool
  | [] => false
  | replies :: rest =>
    match scanReplies replies with
    | some b => b
    | none => get_approval_from_slack rest

/-- A reply that matches neither keyword set. -/
abbrev indecisive (x : String) : Prop :=
  has_keyword approve_keywords (lowerStr x) = false ∧
    has_keyword deny_keywords (lowerStr x) = false

lemma scanReplies_eq_none {l : List String} (h : ∀ x ∈ l, indecisive x) :
    scanReplies l = none := by
  induction l with
  | nil => rfl
  | cons t rest ih =>
    have ht := h t (by simp)
    simp only [scanReplies, ht.1, ht.2, Bool.false_eq_true, if_false]
    exact ih fun x hx => h x (by simp [hx])

lemma scanReplies_first_decisive {pre : List String} (r : String) (post : List String)
    (hpre : ∀ x ∈ pre, indecisive x) :
    scanReplies (pre ++ r :: post)
      = if has_keyword approve_keywords (lowerStr r) then some true
        else if has_keyword deny_keywords (lowerStr r) then some false
        else scanReplies post := by
  induction pre with
  | nil => simp [scanReplies]
  | cons t rest ih =>
    have ht := hpre t (by simp)
    simp only [List.cons_append, scanReplies, ht.1, ht.2, Bool.false_eq_true, if_false]
    exact ih fun x hx => hpre x (by simp [hx])

lemma exists_approve_of_scanReplies_true {l : List String}
    (h : scanReplies l = some true) :
    ∃ x ∈ l, has_keyword approve_keywords (lowerStr x) = true := by
  induction l with
  | nil => simp [scanReplies] at h
  | cons t rest ih =>
    simp only [scanReplies] at h
    by_cases ha : has_keyword approve_keywords (lowerStr t) = true
    · exact ⟨t, by simp, ha⟩
    · rw [if_neg ha] at h
      by_cases hd : has_keyword deny_keywords (lowerStr t) = true
      · rw [if_pos hd] at h
        exact absurd h (by simp)
      · rw [if_neg hd] at h
        obtain ⟨x, hx, hax⟩ := ih h
        exact ⟨x, by simp [hx], hax⟩

lemma get_approval_silence {polls : List (List String)}
    (h : ∀ p ∈ polls, ∀ x ∈ p, indecisive x) :
    get_approval_from_slack polls = false := by
  induction polls with
  | nil => rfl
  | cons p rest ih =>
    have hp : scanReplies p = none := scanReplies_eq_none (h p (by simp))
    simp only [get_approval_from_slack, hp]
    exact ih fun q hq => h q (by simp [hq])

lemma exists_approve_of_get_approval_true {polls : List (List String)}
    (h : get_approval_from_slack polls = true) :
    ∃ p ∈ polls, ∃ x ∈ p, has_keyword approve_keywords (lowerStr x) = true := by
  induction polls with
  | nil => simp [get_approval_from_slack] at h
  | cons p rest ih =>
    simp only [get_approval_from_slack] at h
    cases hs : scanReplies p with
    | none =>
      rw [hs] at h
      obtain ⟨q, hq, hx⟩ := ih h
      exact ⟨q, by simp [hq], hx⟩
    | some b =>
      rw [hs] at h
      cases b with
      | false => exact absurd h (by simp)
      | true =>
        obtain ⟨x, hx, hax⟩ := exists_approve_of_scanReplies_true hs
        exact ⟨p, by simp, x, hx, hax⟩

lemma get_approval_first_reply (polls1 polls2 : List (List String))
    (pre post : List String) (r : String)
    (h1 : ∀ p ∈ polls1, ∀ x ∈ p, indecisive x)
    (hpre : ∀ x ∈ pre, indecisive x) :
    (has_keyword approve_keywords (lowerStr r) = true →
        get_approval_from_slack (polls1 ++ (pre ++ r :: post) :: polls2) = true) ∧
    (has_keyword approve_keywords (lowerStr r) = false →
      has_keyword deny_keywords (lowerStr r) = true →
        get_approval_from_slack (polls1 ++ (pre ++ r :: post) :: polls2) = false) := by
  induction polls1 with
  | nil =>
    constructor
    · intro ha
      simp only [List.nil_append, get_approval_from_slack,
        scanReplies_first_decisive r post hpre, ha, if_true]
    · intro ha hd
      simp only [List.nil_append, get_approval_from_slack,
        scanReplies_first_decisive r post hpre, ha, hd, Bool.false_eq_true,
        if_false, if_true]
  | cons p rest ih =>
    have hp : scanReplies p = none := scanReplies_eq_none (h1 p (by simp))
    have ih2 := ih fun q hq => h1 q (by simp [hq])
    constructor
    · intro ha
      simp only [List.cons_append, get_approval_from_slack, hp]
      exact ih2.1 ha
    · intro ha hd
      simp only [List.cons_append, get_approval_from_slack, hp]
      exact ih2.2 ha hd

/-- C3: for every poll sequence of the approval gate, if the first decisive
reply (whole-word, case-insensitive keyword match; approve checked before
deny per reply) contains an approve keyword the outcome is approved, and if
it contains only a deny keyword the outcome is denied; if no reply matches
either keyword set before the timeout the outcome is denied; and the gate
never approves unless some reply contained an approve keyword (fail closed
on silence or ambiguity). -/
theorem C3_approval_gate :
    (∀ (polls1 polls2 : List (List String)) (pre post : List String) (r : String),
        (∀ p ∈ polls1, ∀ x ∈ p, indecisive x) →
        (∀ x ∈ pre, indecisive x) →
        ((has_keyword approve_keywords (lowerStr r) = true →
            get_approval_from_slack (polls1 ++ (pre ++ r :: post) :: polls2) = true) ∧
          (has_keyword approve_keywords (lowerStr r) = false →
            has_keyword deny_keywords (lowerStr r) = true →
            get_approval_from_slack (polls1 ++ (pre ++ r :: post) :: polls2) = false))) ∧
    (∀ polls : List (List String),
        (∀ p ∈ polls, ∀ x ∈ p, indecisive x) →
        get_approval_from_slack polls = false) ∧
    (∀ polls : List (List String), get_approval_from_slack polls = true →
        ∃ p ∈ polls, ∃ x ∈ p, has_keyword approve_keywords (lowerStr x) = true) :=
  ⟨fun polls1 polls2 pre post r h1 hpre =>
      get_approval_first_reply polls1 polls2 pre post r h1 hpre,
   fun _ h => get_approval_silence h,
   fun _ h => exists_approve_of_get_approval_true h⟩

/-- Closed instantiation of `C3_approval_gate`: an approving reply after an
indecisive poll yields approval, a lone "nope" yields denial, and silence
until the timeout yields denial. -/
theorem C3_witness :
    get_approval_from_slack [["hello there"], ["thanks", "I Approve"]] = true ∧
    get_approval_from_slack [["nope"]] = false ∧
    get_approval_from_slack [["hm"], []] = false ∧
    get_approval_from_slack [] = false := by
  refine ⟨?_, ?_, ?_, ?_⟩
  · exact (C3_approval_gate.1 [["hello there"]] [] ["thanks"] [] "I Approve"
      (by decide) (by decide)).1 (by decide)
  · exact (C3_approval_gate.1 [] [] [] [] "nope"
      (by decide) (by decide)).2 (by decide) (by decide)
  · exact C3_approval_gate.2.1 [["hm"], []] (by decide)
  · exact C3_approval_gate.2.1 [] (by decide)

/-! ## Airtable write operations (`src/crm/airtable_tools.py`)

The Products and Customers tables are modelled as lists of records; an
Airtable record carries its record id (`product["id"]`) and the fields the
operations touch.  `_update_record` patches the record with the given
record id (record ids are unique in Airtable).  A raised `ValueError`
is `Except.error`; it occurs before any `_update_record` call, so the
error path performs no write. -/

structure ProductRecord where
  rec_id : String
  sku : String
  qty_available : ℤ
deriving Repr, DecidableEq

structure CustomerRecord where
  rec_id : String
  customer_id : String
  open_ar : ℚ
  credit_limit : ℚ
deriving Repr, DecidableEq

/-- `_update_record` on the Products table, patching `Qty Available` of the
record with the given record id. -/
def update_record_qty (records : List ProductRecord) (record_id : String)
    (qty : ℤ) : List ProductRecord :=
  records.map fun p =>
    if p.rec_id = record_id then { p with qty_available := qty } else p

/-- `update_inventory(ordered_qty, product_sku)`: find the first record with
the SKU (the loop with `break`), compute `current_qty - ordered_qty` with no
sufficiency check or clamping, raise if no record was found (the falsy
`record_id` test also fires on an empty record id), else patch the record.
Returns the patched table and the reported new quantity. -/
def update_inventory (ordered_qty : ℤ) (product_sku : String)
    (all_products : List ProductRecord) :
    Except String (List ProductRecord × ℤ) :=
  match all_products.find? (fun p => p.sku == product_sku) with
  | none =>
    Except.error ("Product with SKU " ++ product_sku ++ " not found in Airtable")
  | some p =>
    if p.rec_id = "" then
      Except.error ("Product with SKU " ++ product_sku ++ " not found in Airtable")
    else
      Except.ok (update_record_qty all_products p.rec_id
          (p.qty_available - ordered_qty),
        p.qty_available - ordered_qty)

/-- Post-state of the Products table after calling `update_inventory`: a
raise leaves the table as it was. -/
def runUpdateInventory (ordered_qty : ℤ) (product_sku : String)
    (all_products : List ProductRecord) : List ProductRecord :=
  match update_inventory ordered_qty product_sku all_products with
  | Except.error _ => all_products
  | Except.ok (t, _) => t

/-- `_update_record` on the Customers table, patching `Open AR`. -/
def update_ar (records : List CustomerRecord) (record_id : String)
    (ar : ℚ) : List CustomerRecord :=
  records.map fun c =>
    if c.rec_id = record_id then { c with open_ar := ar } else c

/-- `update_customer_credit(customer_id, order_amount)`: find the first
record with the customer id, add the order amount to its open AR, raise if
no record was found, else patch the record.  Returns the patched table, the
new open AR and the remaining available credit. -/
def update_customer_credit (customer_id : String) (order_amount : ℚ)
    (all_customers : List CustomerRecord) :
    Except String (List CustomerRecord × ℚ × ℚ) :=
  match all_customers.find? (fun c => c.customer_id == customer_id) with
  | none =>
    Except.error ("Customer with ID " ++ customer_id ++ " not found in Airtable")
  | some c =>
    if c.rec_id = "" then
      Except.error ("Customer with ID " ++ customer_id ++ " not found in Airtable")
    else
      Except.ok (update_ar all_customers c.rec_id (c.open_ar + order_amount),
        c.open_ar + order_amount,
        c.credit_limit - (c.open_ar + order_amount))

/-- Post-state of the Customers table after calling `update_customer_credit`:
a raise leaves the table as it was. -/
def runUpdateCustomerCredit (customer_id : String) (order_amount : ℚ)
    (all_customers : List CustomerRecord) : List CustomerRecord :=
  match update_customer_credit customer_id order_amount all_customers with
  | Except.error _ => all_customers
  | Except.ok (t, _, _) => t

/-- Stored quantity of the first record with the given SKU. -/
def qty_of (tbl : List ProductRecord) (sku : String) : Option ℤ :=
  (tbl.find? fun p => p.sku == sku).map fun p => p.qty_available

/-- Patching a record's quantity does not change any SKU field. -/
lemma find?_update_record_qty (tbl : List ProductRecord) (record_id : String)
    (qty : ℤ) (sku : String) :
    (update_record_qty tbl record_id qty).find? (fun p => p.sku == sku)
      = (tbl.find? fun p => p.sku == sku).map
          (fun p => if p.rec_id = record_id then { p with qty_available := qty }
            else p) := by
  unfold update_record_qty
  rw [List.find?_map]
  have hpred : ((fun p => p.sku == sku) ∘ fun p : ProductRecord =>
      if p.rec_id = record_id then { p with qty_available := qty } else p)
      = fun p : ProductRecord => p.sku == sku := by
    funext p
    by_cases h : p.rec_id = record_id <;> simp [h, Function.comp]
  rw [hpred]

/-- C9: when the SKU exists with available quantity `a`, `update_inventory`
stores exactly `a - ordered_qty` — there is no stock-sufficiency re-check
and no clamping, so the stored quantity can become negative when the
ordered quantity exceeds `a`. -/
theorem C9_update_inventory_no_clamp (tbl : List ProductRecord) (sku : String)
    (ordered_qty : ℤ) (p : ProductRecord)
    (hfind : tbl.find? (fun q => q.sku == sku) = some p)
    (hid : p.rec_id ≠ "") :
    update_inventory ordered_qty sku tbl
        = Except.ok (update_record_qty tbl p.rec_id (p.qty_available - ordered_qty),
            p.qty_available - ordered_qty) ∧
    qty_of (runUpdateInventory ordered_qty sku tbl) sku
        = some (p.qty_available - ordered_qty) := by
  have hupd : update_inventory ordered_qty sku tbl
      = Except.ok (update_record_qty tbl p.rec_id (p.qty_available - ordered_qty),
          p.qty_available - ordered_qty) := by
    unfold update_inventory
    rw [hfind]
    simp [hid]
  refine ⟨hupd, ?_⟩
  unfold runUpdateInventory
  rw [hupd]
  unfold qty_of
  rw [find?_update_record_qty, hfind]
  simp

/-- Closed instantiation of `C9_update_inventory_no_clamp`: ordering 7 units
of a SKU with only 3 available persists the negative quantity -4. -/
theorem C9_witness :
    (update_inventory 7 "SKU-1" [⟨"rec1", "SKU-1", 3⟩]
        = Except.ok (update_record_qty [⟨"rec1", "SKU-1", 3⟩] "rec1" (3 - 7), 3 - 7) ∧
      qty_of (runUpdateInventory 7 "SKU-1" [⟨"rec1", "SKU-1", 3⟩]) "SKU-1"
        = some (3 - 7)) ∧
    (3 - 7 : ℤ) < 0 :=
  ⟨C9_update_inventory_no_clamp [⟨"rec1", "SKU-1", 3⟩] "SKU-1" 7
      ⟨"rec1", "SKU-1", 3⟩ (by decide) (by decide),
    by decide⟩

/-- C10: `update_inventory` on an absent SKU and `update_customer_credit` on
an absent customer id (including the placeholder "NEW") raise and perform no
record update, leaving the store unchanged. -/
theorem C10_not_found_atomic :
    (∀ (tbl : List ProductRecord) (sku : String) (ordered_qty : ℤ),
        tbl.find? (fun p => p.sku == sku) = none →
        (∃ msg, update_inventory ordered_qty sku tbl = Except.error msg) ∧
        runUpdateInventory ordered_qty sku tbl = tbl) ∧
    (∀ (tbl : List CustomerRecord) (customer_id : String) (order_amount : ℚ),
        tbl.find? (fun c => c.customer_id == customer_id) = none →
        (∃ msg, update_customer_credit customer_id order_amount tbl
            = Except.error msg) ∧
        runUpdateCustomerCredit customer_id order_amount tbl = tbl) := by
  constructor
  · intro tbl sku ordered_qty hfind
    have herr : update_inventory ordered_qty sku tbl
        = Except.error ("Product with SKU " ++ sku ++ " not found in Airtable") := by
      unfold update_inventory
      rw [hfind]
    exact ⟨⟨_, herr⟩, by unfold runUpdateInventory; rw [herr]⟩
  · intro tbl customer_id order_amount hfind
    have herr : update_customer_credit customer_id order_amount tbl
        = Except.error ("Customer with ID " ++ customer_id
            ++ " not found in Airtable") := by
      unfold update_customer_credit
      rw [hfind]
    exact ⟨⟨_, herr⟩, by unfold runUpdateCustomerCredit; rw [herr]⟩

/-- Closed instantiation of `C10_not_found_atomic` at an absent SKU and at
the placeholder customer id "NEW". -/
theorem C10_witness :
    ((∃ msg, update_inventory 5 "SKU-404" [⟨"rec1", "SKU-1", 3⟩]
        = Except.error msg) ∧
      runUpdateInventory 5 "SKU-404" [⟨"rec1", "SKU-1", 3⟩]
        = [⟨"rec1", "SKU-1", 3⟩]) ∧
    ((∃ msg, update_customer_credit "NEW" 50 [⟨"recC", "C-5002", 100, 3000⟩]
        = Except.error msg) ∧
      runUpdateCustomerCredit "NEW" 50 [⟨"recC", "C-5002", 100, 3000⟩]
        = [⟨"recC", "C-5002", 100, 3000⟩]) :=
  ⟨C10_not_found_atomic.1 [⟨"rec1", "SKU-1", 3⟩] "SKU-404" 5 rfl,
   C10_not_found_atomic.2 [⟨"recC", "C-5002", 100, 3000⟩] "NEW" 50 rfl⟩

/-! ## Fulfillment stage (`src/agents/fulfiller.py`)

`send_confirmation_email_with_approval` is plain code; the surrounding
STEP 1 - STEP 5 procedure is laid out in the fulfiller agent's embedded
instructions and is modelled as written there. -/

inductive ApprovalStatus where
  | approved : ApprovalStatus
  | denied : ApprovalStatus
  | error : ApprovalStatus
deriving Repr, DecidableEq

structure ApprovalResult where
  status : ApprovalStatus
  email_sent : Bool
deriving Repr, DecidableEq

/-- External outcomes of one fulfillment attempt: whether the Slack post
succeeds, the reply polls observed before the 60s timeout, and whether the
confirmation email send succeeds. -/
structure ApprovalEnv where
  post_ok : Bool
  polls : List (List String)
  email_ok : Bool
deriving Repr, DecidableEq

/-- `send_confirmation_email_with_approval`: post to Slack (failure returns
status "error"), block on `get_approval_from_slack`, and if approved send
the confirmation email immediately.  A failing send still reports status
"approved", only with `email_sent` false. -/
def send_confirmation_email_with_approval (env : ApprovalEnv) : ApprovalResult :=
  if env.post_ok = false then ⟨ApprovalStatus.error, false⟩
  else if get_approval_from_slack env.polls then
    ⟨ApprovalStatus.approved, env.email_ok⟩
  else ⟨ApprovalStatus.denied, false⟩

/-- The record store as the fulfiller sees it. -/
structure Store where
  products : List ProductRecord
  customers : List CustomerRecord
deriving Repr, DecidableEq

/-- `add_new_customer`: create a customer record with the starter credit
limit 3000 and open AR 0.  The generated record and customer ids (max
existing customer number + 1) are abstracted as fixed strings; no claim
depends on them. -/
def add_new_customer (store : Store) : Store :=
  { store with customers := store.customers ++ [⟨"recNEW", "C-5001", 0, 3000⟩] }

structure FulfillmentResult where
  ok : Bool
  order_id : String
  invoice_no : String
deriving Repr, DecidableEq

/-- STEP 4 of the fulfiller instructions: for each line item call
`update_inventory(ordered_qty, product_sku)`, then call
`update_customer_credit(customer_id, order_total)`.  A raising tool call
leaves the store as it was; the flag records whether every update
succeeded. -/
def fulfiller_step4 (po : RetrievedPO) (store : Store) : Store × Bool :=
  let inv := po.items.foldl
    (fun (acc : Store × Bool) it =>
      match update_inventory (it.ordered_qty : ℤ) it.product_sku acc.1.products with
      | Except.ok (t, _) => ({ acc.1 with products := t }, acc.2)
      | Except.error _ => (acc.1, false))
    (store, true)
  match update_customer_credit po.customer_id po.order_total inv.1.customers with
  | Except.ok (t, _, _) => ({ inv.1 with customers := t }, inv.2)
  | Except.error _ => (inv.1, false)

/-- The fulfiller procedure as laid out in the agent's instructions:
STEP 1 creates the customer when the id is the placeholder "NEW"; STEP 2
generates the invoice (no record-store effect); STEP 3 requests approval
and sends the confirmation; STEP 4 updates inventory and credit only if
STEP 3 reported status approved; STEP 5 returns ok only when approved and
STEP 4 completed. -/
def fulfiller_run (env : ApprovalEnv) (po : RetrievedPO) (store : Store) :
    Store × FulfillmentResult :=
  let s1 := if po.customer_id == "NEW" then add_new_customer store else store
  let approval := send_confirmation_email_with_approval env
  if approval.status = ApprovalStatus.approved then
    let s2 := fulfiller_step4 po s1
    (s2.1, ⟨s2.2, po.po_number, po.po_number⟩)
  else
    (s1, ⟨false, po.po_number, po.po_number⟩)

/-- A concrete line item and order for exercising the fulfiller. -/
def item1 : RetrievedItem :=
  { customer_id := "C-5002", customer_name := "Acme GmbH", customer_address := "Berlin"
    product_sku := "SKU-1", product_name := "Widget"
    product_qty_available := 10, ordered_qty := 2
    unit_price := 3, vat_rate := 19/100
    product_in_stock := true, subtotal := 6 }

def po1 : RetrievedPO :=
  { email_id := "em2", po_number := "PO-2", customer_id := "C-5002"
    customer_name := "Acme GmbH"
    customer_overall_credit_limit := 3000, customer_open_ar := 100
    customer_available_credit := 2900, items := [item1]
    tax := 114/100, shipping := 25, subtotal := 6, order_total := 3214/100
    customer_can_order_with_credit := true, retrieval_evidence := [] }

def store0 : Store :=
  { products := [⟨"rec1", "SKU-1", 10⟩]
    customers := [⟨"recC", "C-5002", 100, 3000⟩] }

/-- C4 as stated is false: when the human approves but the confirmation
email send fails, the tool reports status "approved" with `email_sent`
false, and the stage — which gates STEP 4 on the status alone — still
decrements inventory.  Concretely: Slack post succeeds, the reply is
"approve", the email send fails, and the stored quantity of SKU-1 drops
from 10 to 8 although no confirmation notice was sent. -/
theorem C4_counterexample :
    (send_confirmation_email_with_approval ⟨true, [["approve"]], false⟩).email_sent
      = false ∧
    (fulfiller_run ⟨true, [["approve"]], false⟩ po1 store0).1.products
      = [⟨"rec1", "SKU-1", 8⟩] ∧
    (fulfiller_run ⟨true, [["approve"]], false⟩ po1 store0).1.products
      ≠ store0.products := by
  have happrove : get_approval_from_slack [["approve"]] = true := by decide
  have hprod : (fulfiller_run ⟨true, [["approve"]], false⟩ po1 store0).1.products
      = [⟨"rec1", "SKU-1", 8⟩] := by
    simp [fulfiller_run, fulfiller_step4, send_confirmation_email_with_approval,
      happrove, update_inventory, update_record_qty, update_customer_credit,
      update_ar, po1, item1, store0, add_new_customer]
  refine ⟨by decide, hprod, ?_⟩
  rw [hprod]
  decide

/-- C4 amended: inventory decrements and receivables increases happen only
in a run whose approval tool call reported status approved (at which point
a confirmation send was attempted); a run in which approval is denied,
times out (no decisive reply in any poll), or errors (the Slack post
failed) leaves the product table unchanged and at most appends to the
customer table (STEP 1 customer creation), never touching an existing
record, and reports ok = false. -/
theorem C4_mutation_requires_approval (env : ApprovalEnv) (po : RetrievedPO)
    (store : Store) :
    ((send_confirmation_email_with_approval env).status ≠ ApprovalStatus.approved →
      (fulfiller_run env po store).1.products = store.products ∧
      (∃ added, (fulfiller_run env po store).1.customers
          = store.customers ++ added) ∧
      (fulfiller_run env po store).2.ok = false) ∧
    (env.post_ok = false →
      (send_confirmation_email_with_approval env).status = ApprovalStatus.error) ∧
    (env.post_ok = true → (∀ p ∈ env.polls, ∀ x ∈ p, indecisive x) →
      (send_confirmation_email_with_approval env).status = ApprovalStatus.denied) := by
  refine ⟨?_, ?_, ?_⟩
  · intro h
    simp only [fulfiller_run]
    rw [if_neg h]
    by_cases hnew : (po.customer_id == "NEW") = true
    · refine ⟨?_, ⟨[⟨"recNEW", "C-5001", 0, 3000⟩], ?_⟩, rfl⟩ <;>
        simp [hnew, add_new_customer]
    · refine ⟨?_, ⟨[], ?_⟩, rfl⟩ <;>
        simp [hnew, add_new_customer]
  · intro hpost
    simp [send_confirmation_email_with_approval, hpost]
  · intro hpost hsilent
    have hap : get_approval_from_slack env.polls = false := get_approval_silence hsilent
    simp [send_confirmation_email_with_approval, hpost, hap]

/-- Closed instantiation of `C4_mutation_requires_approval`: a denied run
("no thanks" reply) leaves the store untouched. -/
theorem C4_witness :
    (fulfiller_run ⟨true, [["no thanks"]], true⟩ po1 store0).1.products
        = store0.products ∧
    (∃ added, (fulfiller_run ⟨true, [["no thanks"]], true⟩ po1 store0).1.customers
        = store0.customers ++ added) ∧
    (fulfiller_run ⟨true, [["no thanks"]], true⟩ po1 store0).2.ok = false :=
  (C4_mutation_requires_approval ⟨true, [["no thanks"]], true⟩ po1 store0).1
    (by decide)

/-! ## Evidence buffers and the inbox loop
(`src/agents/tool_capture.py`, `src/agents/middleware_tools.py`,
`src/workflow/workflow.py`)

Two near-duplicate modules each declare module-level buffers.  The
middleware attached to every agent (`agents/__init__.py` attaches
`middleware_tools.ToolCaptureMiddleware`) appends captured search payloads
to `middleware_tools.search_evidence` and `middleware_tools.search_queries`
via `_record_search_payload`; the capture code in `tool_capture.py` is
commented out, so nothing ever appends to the `tool_capture` buffers.
`run_till_mail_read` imports `clear_evidence` from `agents.tool_capture`,
which wipes only the `tool_capture` buckets, and calls it at the end of
each iteration. -/

/-- The four module-level buffers. -/
structure Buffers where
  tc_search_evidence : List String
  tc_captured_tool_calls : List String
  mw_search_evidence : List String
  mw_search_queries : List String
deriving Repr, DecidableEq

/-- All buffers at module import time. -/
def initialBuffers : Buffers := ⟨[], [], [], []⟩

/-- `agents.tool_capture.clear_evidence`, the function `run_till_mail_read`
imports and calls: it wipes the `tool_capture` buckets only. -/
def clear_evidence (b : Buffers) : Buffers :=
  { b with tc_search_evidence := [], tc_captured_tool_calls := [] }

/-- One tool invocation as the attached middleware sees it: tool name, the
query argument, and the serialized result documents. -/
structure ToolCall where
  tool_name : String
  query : String
  payload : List String
deriving Repr, DecidableEq

/-- `_SEARCH_TOOLS` in `middleware_tools.py`. -/
def SEARCH_TOOLS : List String :=
  ["search_customers", "_search_customers", "search_products", "_search_products"]

/-- `middleware_tools._record_search_payload`, run after every tool call of
every agent: for a search tool with a non-empty payload, append the query
(when non-empty) to `search_queries` and the serialized documents to
`search_evidence` — both in `middleware_tools`, never in `tool_capture`. -/
def record_search_payload (call : ToolCall) (b : Buffers) : Buffers :=
  if SEARCH_TOOLS.contains call.tool_name = false ∨ call.payload.isEmpty = true
  then b
  else
    { b with
      mw_search_queries := if call.query = "" then b.mw_search_queries
        else b.mw_search_queries ++ [call.query]
      mw_search_evidence := b.mw_search_evidence ++ call.payload }

/-- One `run_till_mail_read` iteration: the workflow run fires the captured
tool calls through the middleware, the message is marked read, and then
the imported `clear_evidence` runs. -/
def run_iteration (calls : List ToolCall) (b : Buffers) : Buffers :=
  clear_evidence (calls.foldl (fun s c => record_search_payload c s) b)

lemma record_search_payload_mw_extends (call : ToolCall) (b : Buffers) :
    ∃ added, (record_search_payload call b).mw_search_evidence
      = b.mw_search_evidence ++ added := by
  unfold record_search_payload
  split
  · exact ⟨[], (List.append_nil _).symm⟩
  · exact ⟨call.payload, rfl⟩

lemma foldl_record_mw_extends (calls : List ToolCall) (b : Buffers) :
    ∃ added, (calls.foldl (fun s c => record_search_payload c s) b).mw_search_evidence
      = b.mw_search_evidence ++ added := by
  induction calls generalizing b with
  | nil => exact ⟨[], (List.append_nil _).symm⟩
  | cons c rest ih =>
    obtain ⟨a1, h1⟩ := record_search_payload_mw_extends c b
    obtain ⟨a2, h2⟩ := ih (record_search_payload c b)
    exact ⟨a1 ++ a2, by simp [List.foldl_cons, h2, h1]⟩

/-- C6 fails on the code: the buffers the enrichment middleware writes are
in `middleware_tools`, but the `clear_evidence` the inbox loop calls is the
`tool_capture` one, so nothing a run appends is ever cleared.  After a run
whose search tool captured one document, the `middleware_tools` evidence
and query buffers still hold that run's entries when the next run starts
(only the never-written `tool_capture` bucket is empty); in general an
iteration never removes anything from the written evidence buffer. -/
theorem C6_evidence_buffer_leak :
    ((run_iteration [⟨"search_products", "q1", ["doc1"]⟩] initialBuffers).mw_search_evidence
        = ["doc1"] ∧
      (run_iteration [⟨"search_products", "q1", ["doc1"]⟩] initialBuffers).mw_search_queries
        = ["q1"] ∧
      (run_iteration [⟨"search_products", "q1", ["doc1"]⟩] initialBuffers).tc_search_evidence
        = []) ∧
    (∀ (calls : List ToolCall) (b : Buffers),
        ∃ added, (run_iteration calls b).mw_search_evidence
          = b.mw_search_evidence ++ added) := by
  refine ⟨⟨by decide, by decide, by decide⟩, ?_⟩
  intro calls b
  unfold run_iteration
  obtain ⟨added, h⟩ := foldl_record_mw_extends calls b
  exact ⟨added, by simp [clear_evidence, h]⟩

/-! ## Groundedness gate (`src/safety/groundedness_check.py`) and routing
(`src/workflow/workflow.py`)

The gate was written as a pass-through executor: read the retriever
response value, run the external `GroundednessEvaluator` (a black box,
passed here as a function of the query text, the serialized order and the
evidence context), attach pass/fail metadata to `additional_properties`.
Its first statement, however, is
`from agents.tool_capture import search_queries` — and `tool_capture`
defines no `search_queries` (only `middleware_tools` does), so every call
raises ImportError before any of the gate logic runs.  The embedding keeps
both levels: `check_agent_groundedness_body` is the post-import portion of
the function, and `check_agent_groundedness` performs the import first and
propagates its failure. -/

structure GroundingMetadata where
  is_grounded_result : Bool
  groundedness_score : ℤ
  groundedness_reason : String
deriving Repr, DecidableEq

/-- Verdict of the external evaluator: pass/fail label, score, reason. -/
structure EvalResult where
  groundedness_result : String
  groundedness : ℤ
  groundedness_reason : String
deriving Repr, DecidableEq

/-- The slice of `AgentExecutorResponse` the gate touches. -/
structure AgentExecutorResponse where
  value : Option RetrievedPO
  additional_properties : Option GroundingMetadata
deriving Repr, DecidableEq

/-- `_attach_success_metadata`. -/
def attach_success_metadata (response : AgentExecutorResponse)
    (result : EvalResult) : AgentExecutorResponse :=
  { response with
    additional_properties := some (GroundingMetadata.mk true
      result.groundedness result.groundedness_reason) }

/-- `_attach_failure_metadata`. -/
def attach_failure_metadata (response : AgentExecutorResponse)
    (reason : String) : AgentExecutorResponse :=
  { response with additional_properties := some ⟨false, 0, reason⟩ }

/-- `str(result).strip().lower() == "pass"` (stripping cannot matter for the
labels the evaluator emits). -/
def is_pass_label (s : String) : Bool := lowerStr s == "pass"

/-- The list-valued module-level attributes of `agents/tool_capture.py`, as
consulted by `from agents.tool_capture import NAME`: the module defines the
buffers `captured_tool_calls` and `search_evidence` (and some helper
functions, not list-valued and not requested by any import modelled here);
it defines no `search_queries` — that name exists only in
`agents/middleware_tools.py`. -/
def tool_capture_buffer_attr (b : Buffers) (name : String) : Option (List String) :=
  if name = "captured_tool_calls" then some b.tc_captured_tool_calls
  else if name = "search_evidence" then some b.tc_search_evidence
  else none

/-- Message of the error raised when the gate's first statement fails. -/
def import_error_msg : String :=
  "ImportError: cannot import name search_queries from agents.tool_capture"

/-- The post-import portion of `check_agent_groundedness` (everything after
the `from agents.tool_capture import search_queries` line), parameterized by
the imported query list: fail fast (without consulting the evaluator) only
when the response has no value; otherwise build the query text from the
captured search queries, join the order response evidence into the context
— even when that list is empty — and attach the evaluator verdict.  The
second component records whether the external evaluator was consulted. -/
def check_agent_groundedness_body
    (evaluator : String → RetrievedPO → String → EvalResult)
    (search_queries : List String)
    (retriever_response : AgentExecutorResponse) :
    AgentExecutorResponse × Bool :=
  match retriever_response.value with
  | none => (attach_failure_metadata retriever_response "No response value", false)
  | some retrieved_po =>
    let query_text := if search_queries.isEmpty
      then "PO " ++ retrieved_po.po_number ++ " retrieval"
      else String.intercalate " | " search_queries
    let result := evaluator query_text retrieved_po
      (String.intercalate "\n\n" retrieved_po.retrieval_evidence)
    if is_pass_label result.groundedness_result then
      (attach_success_metadata retriever_response result, true)
    else
      (attach_failure_metadata retriever_response result.groundedness_reason, true)

/-- `check_agent_groundedness` as shipped: resolve
`from agents.tool_capture import search_queries` first.  The name is absent
from the module, so the lookup fails for every buffer state and the
executor raises before any gate logic; only a successful import would reach
the body. -/
def check_agent_groundedness
    (evaluator : String → RetrievedPO → String → EvalResult)
    (b : Buffers)
    (retriever_response : AgentExecutorResponse) :
    Except String (AgentExecutorResponse × Bool) :=
  match tool_capture_buffer_attr b "search_queries" with
  | none => Except.error import_error_msg
  | some search_queries =>
    Except.ok (check_agent_groundedness_body evaluator search_queries
      retriever_response)

/-- Routing branch condition `should_be_grounded` reads the groundedness
metadata, defaulting to false when absent. -/
def metadataRoute (props : Option GroundingMetadata) : Bool :=
  (props.map fun m => m.is_grounded_result).getD false

def should_be_grounded (groundedness_response : AgentExecutorResponse) : Bool :=
  metadataRoute groundedness_response.additional_properties

/-- An evaluator that always returns a pass verdict, used to exhibit
concrete gate behaviour. -/
def pass_evaluator : String → RetrievedPO → String → EvalResult :=
  fun _ _ _ => ⟨"pass", 5, "Looks grounded"⟩

/-- The gate raises the same ImportError on every call, whatever the
evaluator, the buffer state and the response: name resolution fails before
any gate logic runs. -/
lemma check_agent_groundedness_raises
    (evaluator : String → RetrievedPO → String → EvalResult)
    (b : Buffers) (resp : AgentExecutorResponse) :
    check_agent_groundedness evaluator b resp = Except.error import_error_msg := rfl

/-- C5 as stated is false: handed an enriched order with an empty evidence
list, the gate does not return an automatic fail verdict with reason
"no response/evidence" — it returns no verdict at all, raising ImportError
from its first statement (`from agents.tool_capture import search_queries`,
a name `tool_capture` does not define). -/
theorem C5_counterexample :
    po0.retrieval_evidence = [] ∧
    check_agent_groundedness pass_evaluator initialBuffers ⟨some po0, none⟩
      = Except.error import_error_msg :=
  ⟨rfl, rfl⟩

/-- C5 amended: for every enriched order reaching the gate — whether or not
its evidence list is empty — the gate raises ImportError from its first
statement before consulting the external evaluator and before attaching any
verdict (the error is the same for every evaluator and every buffer state,
so the evaluator is never invoked); the run therefore terminates at the
gate and the Decision stage is not invoked. -/
theorem C5_gate_import_failure
    (evaluator : String → RetrievedPO → String → EvalResult)
    (b : Buffers) (resp : AgentExecutorResponse) :
    check_agent_groundedness evaluator b resp = Except.error import_error_msg :=
  check_agent_groundedness_raises evaluator b resp

/-- C8 as stated is false: the gate never forwards the enriched-order
payload, with or without verdict metadata — handed a concrete enriched
order it raises ImportError and produces no output response. -/
theorem C8_counterexample :
    check_agent_groundedness pass_evaluator initialBuffers ⟨some po1, none⟩
      = Except.error import_error_msg :=
  rfl

/-- C8 amended: as shipped the gate forwards nothing — every call raises
ImportError before touching the payload, so no financial or identity field
is ever mutated by it; its post-import body, the code the claim describes,
does pass the response value through unchanged on every branch, attaching
the verdict only as `additional_properties` metadata; and the downstream
routing predicate is a function of that metadata alone, never of the
payload. -/
theorem C8_gate_pass_through :
    (∀ (evaluator : String → RetrievedPO → String → EvalResult)
        (b : Buffers) (resp : AgentExecutorResponse),
        check_agent_groundedness evaluator b resp
          = Except.error import_error_msg) ∧
    (∀ (evaluator : String → RetrievedPO → String → EvalResult)
        (queries : List String) (resp : AgentExecutorResponse),
        (check_agent_groundedness_body evaluator queries resp).1.value
          = resp.value) ∧
    (∀ resp1 resp2 : AgentExecutorResponse,
        resp1.additional_properties = resp2.additional_properties →
        should_be_grounded resp1 = should_be_grounded resp2) := by
  refine ⟨fun evaluator b resp => check_agent_groundedness_raises evaluator b resp,
    ?_, ?_⟩
  · intro evaluator queries resp
    unfold check_agent_groundedness_body
    split
    · rfl
    · dsimp only
      split <;> (split <;> rfl)
  · intro resp1 resp2 hmeta
    unfold should_be_grounded
    rw [hmeta]

/-- Closed instantiation of `C8_gate_pass_through`: the body passes a
concrete payload through unchanged, and two responses with the same
(absent) metadata but different payloads route identically. -/
theorem C8_witness :
    (check_agent_groundedness_body pass_evaluator [] ⟨some po0, none⟩).1.value
        = some po0 ∧
    should_be_grounded ⟨none, none⟩ = should_be_grounded ⟨some po0, none⟩ :=
  ⟨C8_gate_pass_through.2.1 pass_evaluator [] ⟨some po0, none⟩,
   C8_gate_pass_through.2.2 ⟨none, none⟩ ⟨some po0, none⟩ rfl⟩

end POInbox
